import Mathlib

/-!
Shallow embedding of the `jacobs_register_helper` register/bit-field library.

The source generates, for each declared field `(FIELD, START, END[, PERMS])`
of a 16-bit or 32-bit register class, a getter and a setter over the member
`register_raw`.  Machine integers are embedded as `Nat`; every place where the
C++ code converts to a narrower unsigned type is an explicit `% 2 ^ w`.  C++
integer promotion turns `uint16_t` operands into 32-bit `int` before shifts
and bitwise operations, so 16-bit intermediate expressions only truncate where
the code stores into a `uint16_t` variable or returns a `uint16_t`.
-/

/-- The permission flags of `REGISTER_PERMS` (`enum class`, underlying values
`0b00`, `0b01`, `0b10`, `0b11`). -/
inductive REGISTER_PERMS where
  | NONE
  | READ
  | WRITE
  | READ_WRITE
deriving DecidableEq

/-- The numeric value of a `REGISTER_PERMS` constant, as produced by
`static_cast<uint8_t>(PERMS)`. -/
def REGISTER_PERMS.toNat : REGISTER_PERMS → Nat
  | .NONE => 0b00
  | .READ => 0b01
  | .WRITE => 0b10
  | .READ_WRITE => 0b11

/-- Body of `IMPLEMENT_REGISTER_16_GET(FIELD, START, END)`:
`uint16_t buffer = register_raw >> START;` stores into a `uint16_t` (the
`% 2 ^ 16`), then returns `buffer & (0xFFFF >> (15 - (END - START)))`. -/
def get16 (raw start finish : Nat) : Nat :=
  ((raw >>> start) % 2 ^ 16) &&& (0xFFFF >>> (15 - (finish - start)))

/-- The `mask` local of `IMPLEMENT_REGISTER_16_SET`:
`static_cast<uint16_t>(~((0xFFFF >> (15 - (END - START))) << START))`.
The operand of `~` is below `2 ^ 16`, so complementing in `int` and casting to
`uint16_t` flips exactly the low 16 bits, i.e. XORs with `0xFFFF`. -/
def mask16 (start finish : Nat) : Nat :=
  ((0xFFFF >>> (15 - (finish - start))) <<< start) ^^^ 0xFFFF

/-- Body of `IMPLEMENT_REGISTER_16_SET(FIELD, START, END)`: if
`value >= (1 << (END - START + 1))` return `false` leaving `register_raw`
unchanged; otherwise clear the field through `mask`, OR in `value << START`
(stored back into the `uint16_t` parameter, hence `% 2 ^ 16`), and return
`true`.  Result: the new `register_raw` and the returned `bool`. -/
def set16 (raw start finish value : Nat) : Nat × Bool :=
  if 1 <<< (finish - start + 1) ≤ value then
    (raw, false)
  else
    ((raw &&& mask16 start finish) ||| ((value <<< start) % 2 ^ 16), true)

/-- Body of `IMPLEMENT_REGISTER_32_GET(FIELD, START, END)`.  The source
declares `uint16_t buffer = register_raw >> START;` even though
`register_raw` is a `uint32_t`, so the shifted value is truncated to 16 bits
(the `% 2 ^ 16`) before being masked with `0xFFFF'FFFF >> (31 - (END - START))`
and returned as `uint16_t`. -/
def get32 (raw start finish : Nat) : Nat :=
  ((raw >>> start) % 2 ^ 16) &&& (0xFFFFFFFF >>> (31 - (finish - start)))

/-- The `mask` local of `IMPLEMENT_REGISTER_32_SET`:
`static_cast<uint32_t>(~((0xFFFF'FFFF >> (31 - (END - START))) << START))`.
`0xFFFF'FFFF` has type `unsigned int`; the shifted operand is below `2 ^ 32`,
so the complement flips exactly the low 32 bits, i.e. XORs with
`0xFFFFFFFF`. -/
def mask32 (start finish : Nat) : Nat :=
  ((0xFFFFFFFF >>> (31 - (finish - start))) <<< start) ^^^ 0xFFFFFFFF

/-- Body of `IMPLEMENT_REGISTER_32_SET(FIELD, START, END)`: the bound of the
range check is `1 << (END - START + 1)`, embedded as its mathematical value
`2 ^ (END - START + 1)` (for `END - START + 1 = 32`, only reachable for a
full-width field, the C++ shift of an `int` by its entire bit width is
undefined; that hazard is recorded separately by `setShifts32`). -/
def set32 (raw start finish value : Nat) : Nat × Bool :=
  if 1 <<< (finish - start + 1) ≤ value then
    (raw, false)
  else
    ((raw &&& mask32 start finish) ||| ((value <<< start) % 2 ^ 32), true)

/-- Body of `IMPLEMENT_REGISTER_16_GET_WITH_PERMS(FIELD, START, END, PERMS)`:
`allowed = static_cast<uint8_t>(PERMS) & 0b01; if (!allowed) return false;`
(the `bool false` converts to `uint16_t` `0`), otherwise the body of
`IMPLEMENT_REGISTER_16_GET` verbatim. -/
def getP16 (raw start finish : Nat) (perms : REGISTER_PERMS) : Nat :=
  if perms.toNat &&& 0b01 = 0 then 0 else get16 raw start finish

/-- Body of `IMPLEMENT_REGISTER_16_SET_WITH_PERMS(FIELD, START, END, PERMS)`:
`allowed = static_cast<uint8_t>(PERMS) & 0b10; if (!allowed) return false;`
leaving `register_raw` untouched, otherwise the body of
`IMPLEMENT_REGISTER_16_SET` verbatim. -/
def setP16 (raw start finish value : Nat) (perms : REGISTER_PERMS) : Nat × Bool :=
  if perms.toNat &&& 0b10 = 0 then (raw, false) else set16 raw start finish value

/-- Body of `IMPLEMENT_REGISTER_32_GET_WITH_PERMS(FIELD, START, END, PERMS)`:
permission check as in the 16-bit variant, then the body of
`IMPLEMENT_REGISTER_32_GET` verbatim (including its `uint16_t buffer`). -/
def getP32 (raw start finish : Nat) (perms : REGISTER_PERMS) : Nat :=
  if perms.toNat &&& 0b01 = 0 then 0 else get32 raw start finish

/-- Body of `IMPLEMENT_REGISTER_32_SET_WITH_PERMS(FIELD, START, END, PERMS)`:
permission check, then the body of `IMPLEMENT_REGISTER_32_SET` verbatim. -/
def setP32 (raw start finish value : Nat) (perms : REGISTER_PERMS) : Nat × Bool :=
  if perms.toNat &&& 0b10 = 0 then (raw, false) else set32 raw start finish value

/-- The shifts executed by `IMPLEMENT_REGISTER_16_GET`, as pairs
`(shift amount, bit width of the promoted type being shifted)`:
`register_raw >> START` (the `uint16_t` promotes to 32-bit `int`) and
`0xFFFF >> (15 - (END - START))` (`0xFFFF` is an `int`). -/
def getShifts16 (start finish : Nat) : List (Nat × Nat) :=
  [(start, 32), (15 - (finish - start), 32)]

/-- The shifts executed by `IMPLEMENT_REGISTER_16_SET`: the range check
`1 << (END - START + 1)` (`int`), the mask construction
`(0xFFFF >> (15 - (END - START))) << START` (`int`), and
`value << START` (`uint16_t` promoted to `int`). -/
def setShifts16 (start finish : Nat) : List (Nat × Nat) :=
  [(finish - start + 1, 32), (15 - (finish - start), 32), (start, 32), (start, 32)]

/-- The shifts executed by `IMPLEMENT_REGISTER_32_GET`:
`register_raw >> START` (`uint32_t`) and `0xFFFF'FFFF >> (31 - (END - START))`
(`unsigned int`). -/
def getShifts32 (start finish : Nat) : List (Nat × Nat) :=
  [(start, 32), (31 - (finish - start), 32)]

/-- The shifts executed by `IMPLEMENT_REGISTER_32_SET`: the range check
`1 << (END - START + 1)` (`1` is a 32-bit `int`), the mask construction
`(0xFFFF'FFFF >> (31 - (END - START))) << START` (`unsigned int`), and
`value << START` (`uint32_t`). -/
def setShifts32 (start finish : Nat) : List (Nat × Nat) :=
  [(finish - start + 1, 32), (31 - (finish - start), 32), (start, 32), (start, 32)]

/-- A register class generated by `DECLARE_REGISTER_16`: one private
`uint16_t register_raw = 0x0` member. -/
structure Register16 where
  register_raw : Nat

/-- The member `uint16_t get_register_value() { return register_raw; }`. -/
def Register16.get_register_value (r : Register16) : Nat :=
  r.register_raw

/-- The member `void clear_register_value() { register_raw = 0x0; }`. -/
def Register16.clear_register_value (_ : Register16) : Register16 :=
  ⟨0x0⟩

/-- The member `void set_register_value(uint16_t value) { register_raw = value; }`;
the parameter type truncates the argument to 16 bits. -/
def Register16.set_register_value (_ : Register16) (value : Nat) : Register16 :=
  ⟨value % 2 ^ 16⟩

/-- A register class generated by `DECLARE_REGISTER_32`: one private
`uint32_t register_raw = 0x0` member. -/
structure Register32 where
  register_raw : Nat

/-- The member `uint32_t get_register_value() { return register_raw; }`. -/
def Register32.get_register_value (r : Register32) : Nat :=
  r.register_raw

/-- The member `void clear_register_value() { register_raw = 0x0; }`. -/
def Register32.clear_register_value (_ : Register32) : Register32 :=
  ⟨0x0⟩

/-- The member `void set_register_value(uint32_t value) { register_raw = value; }`. -/
def Register32.set_register_value (_ : Register32) (value : Nat) : Register32 :=
  ⟨value % 2 ^ 32⟩

/-- A register class generated by `DECLARE_REGISTER_16_WITH_PERMS`: the same
private `uint16_t register_raw = 0x0` member; the permission arguments feed
only the generated per-field accessors (`getP16` / `setP16`), not the
whole-register members below. -/
structure Register16P where
  register_raw : Nat

/-- The member `uint16_t get_register_value() { return register_raw; }` of the
`WITH_PERMS` 16-bit class. -/
def Register16P.get_register_value (r : Register16P) : Nat :=
  r.register_raw

/-- The member `void clear_register_value() { register_raw = 0x0; }` of the
`WITH_PERMS` 16-bit class. -/
def Register16P.clear_register_value (_ : Register16P) : Register16P :=
  ⟨0x0⟩

/-- The member `void set_register_value(uint16_t value) { register_raw = value; }`
of the `WITH_PERMS` 16-bit class. -/
def Register16P.set_register_value (_ : Register16P) (value : Nat) : Register16P :=
  ⟨value % 2 ^ 16⟩

/-- A register class generated by `DECLARE_REGISTER_32_WITH_PERMS`. -/
structure Register32P where
  register_raw : Nat

/-- The member `uint32_t get_register_value() { return register_raw; }` of the
`WITH_PERMS` 32-bit class. -/
def Register32P.get_register_value (r : Register32P) : Nat :=
  r.register_raw

/-- The member `void clear_register_value() { register_raw = 0x0; }` of the
`WITH_PERMS` 32-bit class. -/
def Register32P.clear_register_value (_ : Register32P) : Register32P :=
  ⟨0x0⟩

/-- The member `void set_register_value(uint32_t value) { register_raw = value; }`
of the `WITH_PERMS` 32-bit class. -/
def Register32P.set_register_value (_ : Register32P) (value : Nat) : Register32P :=
  ⟨value % 2 ^ 32⟩

/-- The accessor `get_aspm_support` of `link_capabilites_register`
(`DECLARE_REGISTER_32` with `aspm_support, 10, 11` in `example/main.cpp`). -/
def link_capabilites_register.get_aspm_support (r : Register32) : Nat :=
  get32 r.register_raw 10 11

/-- The accessor `set_max_link_speed` of `link_capabilites_register`
(field `max_link_speed, 0, 3`); returns the updated register and the `bool`. -/
def link_capabilites_register.set_max_link_speed (r : Register32) (value : Nat) :
    Register32 × Bool :=
  ((⟨(set32 r.register_raw 0 3 value).1⟩ : Register32), (set32 r.register_raw 0 3 value).2)

/-- The accessor `set_port_number` of `link_capabilites_register`
(field `port_number, 24, 31`). -/
def link_capabilites_register.set_port_number (r : Register32) (value : Nat) :
    Register32 × Bool :=
  ((⟨(set32 r.register_raw 24 31 value).1⟩ : Register32), (set32 r.register_raw 24 31 value).2)

/-- What the spec says `extract` computes: `(raw >> start) & field_mask`, a
mask with exactly `end - start + 1` low bits set, the field right-aligned to
bit 0 with no truncation to a narrower type.  Stated from the spec's words,
for comparison with the source-derived `get32`. -/
def extract_spec (raw start finish : Nat) : Nat :=
  (raw >>> start) &&& (2 ^ (finish - start + 1) - 1)

lemma hex_ffff_eq : (0xFFFF : Nat) = 2 ^ 16 - 1 := by norm_num

lemma hex_ffffffff_eq : (0xFFFFFFFF : Nat) = 2 ^ 32 - 1 := by norm_num

/-- Bit `i` of the clearing mask of the 16-bit setter: set exactly on the low
16 bits that lie outside the field range `[start, finish]`. -/
lemma mask16_testBit (s e i : Nat) (hse : s ≤ e) (he : e < 16) :
    (mask16 s e).testBit i
      = (decide (i < 16) && !(decide (s ≤ i) && decide (i ≤ e))) := by
  simp only [mask16, hex_ffff_eq, Nat.testBit_xor, Nat.testBit_shiftLeft,
    Nat.testBit_shiftRight, Nat.testBit_two_pow_sub_one, ge_iff_le]
  by_cases h1 : s ≤ i
  · have h2 : (15 - (e - s) + (i - s) < 16) ↔ (i ≤ e) := by omega
    by_cases h3 : i ≤ e
    · have h4 : i < 16 := by omega
      simp [h1, h2, h3, h4]
    · simp [h1, h2, h3]
  · simp [h1]

/-- Bit `i` of the clearing mask of the 32-bit setter: set exactly on the low
32 bits that lie outside the field range `[start, finish]`. -/
lemma mask32_testBit (s e i : Nat) (hse : s ≤ e) (he : e < 32) :
    (mask32 s e).testBit i
      = (decide (i < 32) && !(decide (s ≤ i) && decide (i ≤ e))) := by
  simp only [mask32, hex_ffffffff_eq, Nat.testBit_xor, Nat.testBit_shiftLeft,
    Nat.testBit_shiftRight, Nat.testBit_two_pow_sub_one, ge_iff_le]
  by_cases h1 : s ≤ i
  · have h2 : (31 - (e - s) + (i - s) < 32) ↔ (i ≤ e) := by omega
    by_cases h3 : i ≤ e
    · have h4 : i < 32 := by omega
      simp [h1, h2, h3, h4]
    · simp [h1, h2, h3]
  · simp [h1]

/-- A value in range for a field of width `e - s + 1` has no bit at or above
that width. -/
lemma value_testBit_high (s e v i : Nat) (hse : s ≤ e) (hv : v < 2 ^ (e - s + 1))
    (hi : e < i) (hsi : s ≤ i) : v.testBit (i - s) = false :=
  Nat.testBit_lt_two_pow
    (lt_of_lt_of_le hv (Nat.pow_le_pow_right (by norm_num) (by omega)))

/-- A successful 16-bit field set leaves every bit outside `[s, e]` alone. -/
lemma set16_frame (raw s e v i : Nat) (hse : s ≤ e) (he : e < 16)
    (hraw : raw < 2 ^ 16) (hsucc : (set16 raw s e v).2 = true)
    (hi : i < s ∨ e < i) :
    ((set16 raw s e v).1).testBit i = raw.testBit i := by
  by_cases hg : 1 <<< (e - s + 1) ≤ v
  · simp [set16, hg] at hsucc
  · have hv : v < 2 ^ (e - s + 1) := by
      rw [Nat.one_shiftLeft] at hg; omega
    simp only [set16, if_neg hg]
    rw [Nat.testBit_or, Nat.testBit_and, Nat.testBit_mod_two_pow,
      Nat.testBit_shiftLeft, mask16_testBit s e i hse he]
    by_cases h16 : i < 16
    · rcases hi with hi | hi
      · have h1 : ¬ s ≤ i := by omega
        simp [h1, h16]
      · have h1 : s ≤ i := by omega
        have h2 : ¬ i ≤ e := by omega
        have h3 := value_testBit_high s e v i hse hv hi h1
        simp [h1, h2, h3, h16]
    · have hr : raw.testBit i = false :=
        Nat.testBit_lt_two_pow
          (lt_of_lt_of_le hraw (Nat.pow_le_pow_right (by norm_num) (by omega)))
      simp [h16, hr]

/-- A successful 32-bit field set leaves every bit outside `[s, e]` alone. -/
lemma set32_frame (raw s e v i : Nat) (hse : s ≤ e) (he : e < 32)
    (hraw : raw < 2 ^ 32) (hsucc : (set32 raw s e v).2 = true)
    (hi : i < s ∨ e < i) :
    ((set32 raw s e v).1).testBit i = raw.testBit i := by
  by_cases hg : 1 <<< (e - s + 1) ≤ v
  · simp [set32, hg] at hsucc
  · have hv : v < 2 ^ (e - s + 1) := by
      rw [Nat.one_shiftLeft] at hg; omega
    simp only [set32, if_neg hg]
    rw [Nat.testBit_or, Nat.testBit_and, Nat.testBit_mod_two_pow,
      Nat.testBit_shiftLeft, mask32_testBit s e i hse he]
    by_cases h32 : i < 32
    · rcases hi with hi | hi
      · have h1 : ¬ s ≤ i := by omega
        simp [h1, h32]
      · have h1 : s ≤ i := by omega
        have h2 : ¬ i ≤ e := by omega
        have h3 := value_testBit_high s e v i hse hv hi h1
        simp [h1, h2, h3, h32]
    · have hr : raw.testBit i = false :=
        Nat.testBit_lt_two_pow
          (lt_of_lt_of_le hraw (Nat.pow_le_pow_right (by norm_num) (by omega)))
      simp [h32, hr]

lemma get16_zero (s e : Nat) : get16 0 s e = 0 := by
  simp [get16, Nat.zero_shiftRight, Nat.zero_and]

lemma get32_zero (s e : Nat) : get32 0 s e = 0 := by
  simp [get32, Nat.zero_shiftRight, Nat.zero_and]


/-- C1: the claimed get-after-set round trip fails on the code.  For the
32-bit field `[0, 16]` the value `0x10000` is in range (`< 2 ^ 17`) and the
set succeeds, but the generated getter truncates `register_raw >> START` to a
`uint16_t` buffer, so it returns `0` instead of `0x10000`. -/
theorem get_after_set_truncates_wide_field :
    (0x10000 : Nat) < 2 ^ (16 - 0 + 1)
    ∧ set32 0 0 16 0x10000 = (0x10000, true)
    ∧ get32 (set32 0 0 16 0x10000).1 0 16 = 0
    ∧ (0x10000 : Nat) ≠ 0 :=
  ⟨by decide, by decide, by decide, by decide⟩

/-- C2: the 32-bit per-field get does not compute `(raw >> start) & mask`.
At `raw = 0x10000` and field `[0, 16]` the spec formula (`extract_spec`)
yields `0x10000`, while the generated getter stores the shifted raw value in a
`uint16_t` buffer and yields `0`. -/
theorem get32_truncates_versus_spec_extract :
    extract_spec 0x10000 0 16 = 0x10000 ∧ get32 0x10000 0 16 = 0 :=
  ⟨by decide, by decide⟩

/-- C3: a successful per-field set changes only bits `[start, end]` of the
raw value, for both register widths: every bit with index below `start` or
above `end` is identical before and after. -/
theorem set_field_frame (s e v i raw : Nat) (hse : s ≤ e) (hi : i < s ∨ e < i) :
    (e < 16 → raw < 2 ^ 16 → (set16 raw s e v).2 = true →
      ((set16 raw s e v).1).testBit i = raw.testBit i)
    ∧ (e < 32 → raw < 2 ^ 32 → (set32 raw s e v).2 = true →
      ((set32 raw s e v).1).testBit i = raw.testBit i) :=
  ⟨fun he hraw hsucc => set16_frame raw s e v i hse he hraw hsucc hi,
   fun he hraw hsucc => set32_frame raw s e v i hse he hraw hsucc hi⟩

/-- Witness for C3 at the field `[2, 3]`, value `3`, raw `85`, bit `5`. -/
theorem set_field_frame_witness :
    ((2 : Nat) ≤ 3 ∧ ((5 : Nat) < 2 ∨ (3 : Nat) < 5)
      ∧ (85 : Nat) < 2 ^ 16 ∧ (set16 85 2 3 3).2 = true)
    ∧ ((set16 85 2 3 3).1).testBit 5 = (85 : Nat).testBit 5
    ∧ ((set32 85 2 3 3).1).testBit 5 = (85 : Nat).testBit 5 :=
  ⟨⟨by decide, Or.inr (by decide), by decide, by decide⟩,
   (set_field_frame 2 3 3 5 85 (by decide) (Or.inr (by decide))).1
     (by decide) (by decide) (by decide),
   (set_field_frame 2 3 3 5 85 (by decide) (Or.inr (by decide))).2
     (by decide) (by decide) (by decide)⟩

/-- C4: a per-field set with a value that does not fit in the field width
(`v ≥ 2 ^ (end - start + 1)`) returns `false` and leaves the raw value
unchanged, for both register widths. -/
theorem set_out_of_range_fails (s e v raw : Nat) (hv : 2 ^ (e - s + 1) ≤ v) :
    set16 raw s e v = (raw, false) ∧ set32 raw s e v = (raw, false) := by
  have h : 1 <<< (e - s + 1) ≤ v := by rw [Nat.one_shiftLeft]; exact hv
  exact ⟨by simp [set16, h], by simp [set32, h]⟩

/-- Witness for C4 at the single-bit field `[0, 0]`, value `2`, raw `5`. -/
theorem set_out_of_range_fails_witness :
    (2 : Nat) ^ (0 - 0 + 1) ≤ 2
    ∧ set16 5 0 0 2 = (5, false) ∧ set32 5 0 0 2 = (5, false) :=
  ⟨by decide,
   (set_out_of_range_fails 0 0 2 5 (by decide)).1,
   (set_out_of_range_fails 0 0 2 5 (by decide)).2⟩

/-- C5: permission gating of the `WITH_PERMS` accessors.  A get on a `WRITE`
or `NONE` field fails (takes the `return false` path); a set on a `READ` or
`NONE` field fails and leaves the raw value unchanged, for any value; on a
`READ_WRITE` field the get delegates to the plain getter and a set with an
in-range value delegates to the plain setter and succeeds. -/
theorem permission_gating (raw s e v w : Nat) (hv : v < 2 ^ (e - s + 1)) :
    (getP16 raw s e REGISTER_PERMS.WRITE = 0
      ∧ getP16 raw s e REGISTER_PERMS.NONE = 0
      ∧ getP32 raw s e REGISTER_PERMS.WRITE = 0
      ∧ getP32 raw s e REGISTER_PERMS.NONE = 0)
    ∧ (setP16 raw s e w REGISTER_PERMS.READ = (raw, false)
      ∧ setP16 raw s e w REGISTER_PERMS.NONE = (raw, false)
      ∧ setP32 raw s e w REGISTER_PERMS.READ = (raw, false)
      ∧ setP32 raw s e w REGISTER_PERMS.NONE = (raw, false))
    ∧ (getP16 raw s e REGISTER_PERMS.READ_WRITE = get16 raw s e
      ∧ getP32 raw s e REGISTER_PERMS.READ_WRITE = get32 raw s e)
    ∧ (setP16 raw s e v REGISTER_PERMS.READ_WRITE = set16 raw s e v
      ∧ (set16 raw s e v).2 = true
      ∧ setP32 raw s e v REGISTER_PERMS.READ_WRITE = set32 raw s e v
      ∧ (set32 raw s e v).2 = true) := by
  have h : ¬ 1 <<< (e - s + 1) ≤ v := by rw [Nat.one_shiftLeft]; omega
  refine ⟨⟨?_, ?_, ?_, ?_⟩, ⟨?_, ?_, ?_, ?_⟩, ⟨?_, ?_⟩, ⟨?_, ?_, ?_, ?_⟩⟩ <;>
    simp [getP16, getP32, setP16, setP32, REGISTER_PERMS.toNat, set16, set32, h]

/-- Witness for C5 at the field `[3, 3]`, raw `0b1000`, value `1`, denied
value `1`. -/
theorem permission_gating_witness :
    ((1 : Nat) < 2 ^ (3 - 3 + 1))
    ∧ (getP16 8 3 3 REGISTER_PERMS.WRITE = 0
      ∧ getP16 8 3 3 REGISTER_PERMS.NONE = 0
      ∧ getP32 8 3 3 REGISTER_PERMS.WRITE = 0
      ∧ getP32 8 3 3 REGISTER_PERMS.NONE = 0)
    ∧ (setP16 8 3 3 1 REGISTER_PERMS.READ = (8, false)
      ∧ setP16 8 3 3 1 REGISTER_PERMS.NONE = (8, false)
      ∧ setP32 8 3 3 1 REGISTER_PERMS.READ = (8, false)
      ∧ setP32 8 3 3 1 REGISTER_PERMS.NONE = (8, false))
    ∧ (getP16 8 3 3 REGISTER_PERMS.READ_WRITE = get16 8 3 3
      ∧ getP32 8 3 3 REGISTER_PERMS.READ_WRITE = get32 8 3 3)
    ∧ (setP16 8 3 3 1 REGISTER_PERMS.READ_WRITE = set16 8 3 3 1
      ∧ (set16 8 3 3 1).2 = true
      ∧ setP32 8 3 3 1 REGISTER_PERMS.READ_WRITE = set32 8 3 3 1
      ∧ (set32 8 3 3 1).2 = true) :=
  ⟨by decide,
   (permission_gating 8 3 3 1 1 (by decide)).1,
   (permission_gating 8 3 3 1 1 (by decide)).2.1,
   (permission_gating 8 3 3 1 1 (by decide)).2.2.1,
   (permission_gating 8 3 3 1 1 (by decide)).2.2.2⟩

/-- C6: the whole-register operations of all four generated register classes
round-trip: after `set_register_value x`, `get_register_value` returns `x`
for every representable `x`, and after `clear_register_value`,
`get_register_value` returns `0`.  None of these operations returns a
failure indication. -/
theorem whole_register_roundtrip (x y : Nat) (r16 : Register16)
    (r32 : Register32) (p16 : Register16P) (p32 : Register32P)
    (hx : x < 2 ^ 16) (hy : y < 2 ^ 32) :
    ((r16.set_register_value x).get_register_value = x
      ∧ (r16.clear_register_value).get_register_value = 0)
    ∧ ((r32.set_register_value y).get_register_value = y
      ∧ (r32.clear_register_value).get_register_value = 0)
    ∧ ((p16.set_register_value x).get_register_value = x
      ∧ (p16.clear_register_value).get_register_value = 0)
    ∧ ((p32.set_register_value y).get_register_value = y
      ∧ (p32.clear_register_value).get_register_value = 0) := by
  have hx2 : x < 65536 := by omega
  have hy2 : y < 4294967296 := by omega
  refine ⟨⟨?_, ?_⟩, ⟨?_, ?_⟩, ⟨?_, ?_⟩, ⟨?_, ?_⟩⟩ <;>
    simp [Register16.set_register_value, Register16.get_register_value,
      Register16.clear_register_value, Register32.set_register_value,
      Register32.get_register_value, Register32.clear_register_value,
      Register16P.set_register_value, Register16P.get_register_value,
      Register16P.clear_register_value, Register32P.set_register_value,
      Register32P.get_register_value, Register32P.clear_register_value,
      Nat.mod_eq_of_lt hx2, Nat.mod_eq_of_lt hy2]

/-- Witness for C6 at `x = 0xABCD`, `y = 0xDEADBEEF`. -/
theorem whole_register_roundtrip_witness :
    ((0xABCD : Nat) < 2 ^ 16 ∧ (0xDEADBEEF : Nat) < 2 ^ 32)
    ∧ (((Register16.mk 7).set_register_value 0xABCD).get_register_value = 0xABCD
      ∧ ((Register16.mk 7).clear_register_value).get_register_value = 0)
    ∧ (((Register32.mk 7).set_register_value 0xDEADBEEF).get_register_value = 0xDEADBEEF
      ∧ ((Register32.mk 7).clear_register_value).get_register_value = 0)
    ∧ (((Register16P.mk 7).set_register_value 0xABCD).get_register_value = 0xABCD
      ∧ ((Register16P.mk 7).clear_register_value).get_register_value = 0)
    ∧ (((Register32P.mk 7).set_register_value 0xDEADBEEF).get_register_value = 0xDEADBEEF
      ∧ ((Register32P.mk 7).clear_register_value).get_register_value = 0) :=
  ⟨⟨by decide, by decide⟩,
   (whole_register_roundtrip 0xABCD 0xDEADBEEF ⟨7⟩ ⟨7⟩ ⟨7⟩ ⟨7⟩
     (by decide) (by decide)).1,
   (whole_register_roundtrip 0xABCD 0xDEADBEEF ⟨7⟩ ⟨7⟩ ⟨7⟩ ⟨7⟩
     (by decide) (by decide)).2.1,
   (whole_register_roundtrip 0xABCD 0xDEADBEEF ⟨7⟩ ⟨7⟩ ⟨7⟩ ⟨7⟩
     (by decide) (by decide)).2.2.1,
   (whole_register_roundtrip 0xABCD 0xDEADBEEF ⟨7⟩ ⟨7⟩ ⟨7⟩ ⟨7⟩
     (by decide) (by decide)).2.2.2⟩

/-- C7: the claim that every shift amount stays strictly below the width of
the shifted type fails on the code.  For the full-width 32-bit field
`start = 0`, `end = 31` the range check of the generated setter computes
`1 << (END - START + 1)` = `1 << 32` on a 32-bit `int`: the shift amount
equals the type's bit width. -/
theorem full_width_32_set_shift_overflow :
    ((32 : Nat), (32 : Nat)) ∈ setShifts32 0 31 ∧ ¬ ((32 : Nat) < 32) :=
  ⟨by decide, by decide⟩

/-- C8: the concrete `link_capabilites_register` scenario of the example
program: raw `0xDEADBEEF` gives `get_aspm_support() == 0b11`; clearing gives
raw `0x0`; then `set_max_link_speed(0xF)` succeeds giving raw `0x0000000F`;
then `set_port_number(0xFF)` succeeds giving raw `0xFF00000F`. -/
theorem link_capabilities_scenario :
    link_capabilites_register.get_aspm_support
      ((Register32.mk 0x0).set_register_value 0xDEADBEEF) = 0b11
    ∧ (((Register32.mk 0x0).set_register_value 0xDEADBEEF).clear_register_value).get_register_value
        = 0x0
    ∧ (link_capabilites_register.set_max_link_speed
        (((Register32.mk 0x0).set_register_value 0xDEADBEEF).clear_register_value) 0xF).2
        = true
    ∧ (link_capabilites_register.set_max_link_speed
        (((Register32.mk 0x0).set_register_value 0xDEADBEEF).clear_register_value) 0xF).1.register_raw
        = 0x0000000F
    ∧ (link_capabilites_register.set_port_number
        (link_capabilites_register.set_max_link_speed
          (((Register32.mk 0x0).set_register_value 0xDEADBEEF).clear_register_value) 0xF).1
        0xFF).2 = true
    ∧ (link_capabilites_register.set_port_number
        (link_capabilites_register.set_max_link_speed
          (((Register32.mk 0x0).set_register_value 0xDEADBEEF).clear_register_value) 0xF).1
        0xFF).1.register_raw = 0xFF00000F :=
  ⟨by decide, by decide, by decide, by decide, by decide, by decide⟩

/-- C9: the permission-denied get path returns the boolean `false` coerced to
the field's value type: exactly `0`, for every raw value (the raw value is
never consulted), which is indistinguishable from an allowed read of a
genuinely zero field. -/
theorem denied_get_returns_zero (raw s e : Nat) :
    (getP16 raw s e REGISTER_PERMS.WRITE = 0
      ∧ getP16 raw s e REGISTER_PERMS.NONE = 0
      ∧ getP32 raw s e REGISTER_PERMS.WRITE = 0
      ∧ getP32 raw s e REGISTER_PERMS.NONE = 0)
    ∧ (getP16 0 s e REGISTER_PERMS.READ_WRITE = 0
      ∧ getP32 0 s e REGISTER_PERMS.READ_WRITE = 0)
    ∧ getP16 raw s e REGISTER_PERMS.WRITE
        = getP16 0 s e REGISTER_PERMS.READ_WRITE
    ∧ getP32 raw s e REGISTER_PERMS.WRITE
        = getP32 0 s e REGISTER_PERMS.READ_WRITE := by
  refine ⟨⟨?_, ?_, ?_, ?_⟩, ⟨?_, ?_⟩, ?_, ?_⟩ <;>
    simp [getP16, getP32, REGISTER_PERMS.toNat, get16_zero, get32_zero]

/-- C10: for the `WITH_PERMS` register classes, the whole-register operations
always take effect, with no failure result: `set_register_value x` replaces
the raw value with `x` in full — including the bits of every field `[s, e]`,
whatever that field's declared permission — and `clear_register_value` zeroes
it; the generated whole-register members take no permission into account
(permissions feed only the per-field accessors `getP16`/`setP16`/
`getP32`/`setP32`). -/
theorem whole_register_ops_bypass_perms (x y s e : Nat)
    (r16 : Register16P) (r32 : Register32P)
    (hx : x < 2 ^ 16) (hy : y < 2 ^ 32) :
    ((r16.set_register_value x).register_raw = x
      ∧ (r16.clear_register_value).register_raw = 0
      ∧ (r32.set_register_value y).register_raw = y
      ∧ (r32.clear_register_value).register_raw = 0)
    ∧ (get16 (r16.set_register_value x).register_raw s e = get16 x s e
      ∧ get32 (r32.set_register_value y).register_raw s e = get32 y s e
      ∧ get16 (r16.clear_register_value).register_raw s e = 0
      ∧ get32 (r32.clear_register_value).register_raw s e = 0) := by
  have hx2 : x < 65536 := by omega
  have hy2 : y < 4294967296 := by omega
  refine ⟨⟨?_, ?_, ?_, ?_⟩, ⟨?_, ?_, ?_, ?_⟩⟩ <;>
    simp [Register16P.set_register_value, Register16P.clear_register_value,
      Register32P.set_register_value, Register32P.clear_register_value,
      Nat.mod_eq_of_lt hx2, Nat.mod_eq_of_lt hy2, get16_zero, get32_zero]

/-- Witness for C10 at `x = 0xBEEF`, `y = 0xDEADBEEF`, field `[3, 4]`. -/
theorem whole_register_ops_bypass_perms_witness :
    ((0xBEEF : Nat) < 2 ^ 16 ∧ (0xDEADBEEF : Nat) < 2 ^ 32)
    ∧ (((Register16P.mk 9).set_register_value 0xBEEF).register_raw = 0xBEEF
      ∧ ((Register16P.mk 9).clear_register_value).register_raw = 0
      ∧ ((Register32P.mk 9).set_register_value 0xDEADBEEF).register_raw = 0xDEADBEEF
      ∧ ((Register32P.mk 9).clear_register_value).register_raw = 0)
    ∧ (get16 ((Register16P.mk 9).set_register_value 0xBEEF).register_raw 3 4
        = get16 0xBEEF 3 4
      ∧ get32 ((Register32P.mk 9).set_register_value 0xDEADBEEF).register_raw 3 4
        = get32 0xDEADBEEF 3 4
      ∧ get16 ((Register16P.mk 9).clear_register_value).register_raw 3 4 = 0
      ∧ get32 ((Register32P.mk 9).clear_register_value).register_raw 3 4 = 0) :=
  ⟨⟨by decide, by decide⟩,
   (whole_register_ops_bypass_perms 0xBEEF 0xDEADBEEF 3 4 ⟨9⟩ ⟨9⟩
     (by decide) (by decide)).1,
   (whole_register_ops_bypass_perms 0xBEEF 0xDEADBEEF 3 4 ⟨9⟩ ⟨9⟩
     (by decide) (by decide)).2⟩
